import Mathlib

/-!
Shallow embedding of the `ninnemana/go-discogs` client library
(files `discogs.go`, `database.go`, `collections.go`, `users.go`,
plus the option/tracing helpers).

External collaborators (the HTTP transport `http.Client.Do`, the OAuth1
library's `Client.GetContext`, and `json.Unmarshal`) are modelled as
oracle functions passed to the embedded operations, exactly at the
points where the Go code calls out to them.  The package-global
`header` variable of `discogs.go` is modelled by explicit state
passing.  Tracing spans are pure no-ops with respect to the data flow
and are omitted.
-/

namespace GoDiscogs

/-- Errors of the library.  `errUserAgentInvalid`, `errCurrencyNotSupported`
and `errUnauthorized` model the package error variables
`ErrUserAgentInvalid`, `ErrCurrencyNotSupported`, `ErrUnauthorized`;
`errUnknown msg` models `fmt.Errorf("unknown error: %s", response.Status)`
(the full formatted message is stored); `decodeFailure` models an error
returned by `json.Unmarshal`; `transportFailure` models an error returned
by `http.Client.Do` / the OAuth client's `GetContext`; and
`wrapped msg cause` models `fmt.Errorf(msg+": %w", cause)`. -/
inductive DiscogsError where
  | errUserAgentInvalid : DiscogsError
  | errCurrencyNotSupported : DiscogsError
  | errUnauthorized : DiscogsError
  | errUnknown (msg : String) : DiscogsError
  | decodeFailure (msg : String) : DiscogsError
  | transportFailure (msg : String) : DiscogsError
  | wrapped (msg : String) (cause : DiscogsError) : DiscogsError
deriving DecidableEq, Repr

/-- Whether an error is a `fmt.Errorf("...: %w", err)` wrapper. -/
def DiscogsError.isWrapped : DiscogsError → Bool
  | DiscogsError.wrapped _ _ => true
  | _ => false

/-- The `http.Header` attached to static-auth requests: an ordered list of
(name, value) pairs, as built by successive `header.Add` calls. -/
abbrev Header := List (String × String)

/-- The outbound HTTP request as it reaches the transport: URL path,
query parameters (`url.Values`), and headers. -/
structure HTTPRequest where
  path : String
  query : List (String × String)
  headers : Header
deriving DecidableEq, Repr

/-- The HTTP response as seen by `request` / `requestWithCreds`:
`statusCode` is `response.StatusCode`, `status` is `response.Status`
(the status text), `body` is the full response body. -/
structure HTTPResponse where
  statusCode : Nat
  status : String
  body : String
deriving DecidableEq, Repr

/-- The external `http.Client.Do` call: either a transport error (its
message) or a response.  Request-building and body-reading failures of
the Go code are folded into this oracle. -/
abbrev HttpDo := HTTPRequest → Except String HTTPResponse

/-- The external OAuth1 `client.GetContext(ctx, creds, path, params)`
call, receiving the service's attached client and credentials. -/
abbrev OAuthGet (Client Creds : Type) :=
  Option Client → Option Creds → String → List (String × String) →
    Except String HTTPResponse

/-- The external `json.Unmarshal` into a destination of type `β`:
either a decode-error message or the decoded value. -/
abbrev Decoder (β : Type) := String → Except String β

/-- `url.Values.Encode` (on the association lists used here). -/
def encodeParams (ps : List (String × String)) : String :=
  String.intercalate "&" (ps.map fun p => p.1 ++ "=" ++ p.2)

/-- `strconv.Itoa` on Go `int` values. -/
def strconv.Itoa (i : Int) : String := toString i

/-- `strings.Replace(s, pat, rep, 1)`: replace the first occurrence
of `pat` in `s` by `rep` (for the non-empty patterns used here). -/
def replaceOnce (s pat rep : String) : String :=
  match s.splitOn pat with
  | [] => s
  | [x] => x
  | x :: y :: rest => x ++ rep ++ String.intercalate pat (y :: rest)

/-- `discogs.go`: the default API endpoint constant `discogsAPI`. -/
def discogsAPI : String := "https://api.discogs.com"

/-- `discogs.go`: the `Options` configuration struct. -/
structure Options where
  URL : String
  Currency : String
  UserAgent : String
  Token : String
deriving DecidableEq, Repr

/-- `oauth.Credentials` of the OAuth1 library (opaque token pair). -/
structure Credentials where
  token : String
  secret : String
deriving DecidableEq, Repr

/-- `oauth.Client` of the OAuth1 library (opaque consumer credentials). -/
structure OAuthClient where
  credentials : Credentials
deriving DecidableEq, Repr

/-- `database.go`: the `databaseService` struct. -/
structure databaseService where
  url : String
  currency : String
deriving DecidableEq, Repr

/-- `search.go` (declared through the facade): the search service state,
holding the search base URL passed by `New`. -/
structure searchService where
  url : String
deriving DecidableEq, Repr

/-- `users.go`: the `userService` struct. -/
structure userService where
  url : String
  oauthClient : Option OAuthClient
  creds : Option Credentials
deriving DecidableEq, Repr

/-- `collections.go`: the `collectionService` struct. -/
structure collectionService where
  url : String
  oauthClient : Option OAuthClient
  creds : Option Credentials
deriving DecidableEq, Repr

/-- `database.go`: `newDatabaseService`. -/
def newDatabaseService (url : String) (currency : String) : databaseService :=
  { url := url, currency := currency }

/-- The search-service constructor invoked by `New`. -/
def newSearchService (url : String) : searchService :=
  { url := url }

/-- `users.go`: `newUserService`. -/
def newUserService (url : String) : userService :=
  { url := url, oauthClient := none, creds := none }

/-- `collections.go`: `newCollectionService`. -/
def newCollectionService (url : String) : collectionService :=
  { url := url, oauthClient := none, creds := none }

/-- `discogs.go`: the `discogs` struct returned by `New`, holding the
four sub-services. -/
structure discogs where
  database : databaseService
  search : searchService
  user : userService
  collection : collectionService
deriving DecidableEq, Repr

/-- The case list of the `switch` in `currency` (`discogs.go` line 84). -/
def supportedCurrencies : List String :=
  ["USD", "GBP", "EUR", "CAD", "AUD", "JPY", "CHF", "MXN", "BRL", "NZD", "SEK", "ZAR"]

/-- `discogs.go` lines 82–91: the `currency` validation function. -/
def currency (c : String) : Except DiscogsError String :=
  if c ∈ supportedCurrencies then
    Except.ok c
  else if c = "" then
    Except.ok "USD"
  else
    Except.error DiscogsError.errCurrencyNotSupported

/-- `discogs.go` lines 48–77: `New`.  The package-global `header` is
modelled by explicit state passing: `New` receives the current global
header and returns the new one.  A `nil` options pointer is `none`. -/
def New (o : Option Options) (_st : Header) :
    Except DiscogsError discogs × Header :=
  let hd : Header := []
  match o with
  | none => (Except.error DiscogsError.errUserAgentInvalid, hd)
  | some o =>
    if o.UserAgent = "" then
      (Except.error DiscogsError.errUserAgentInvalid, hd)
    else
      let hd := hd ++ [("User-Agent", o.UserAgent)]
      match currency o.Currency with
      | Except.error e => (Except.error e, hd)
      | Except.ok cur =>
        let hd :=
          if o.Token ≠ "" then
            hd ++ [("Authorization", "Discogs token=" ++ o.Token)]
          else hd
        let url := if o.URL = "" then discogsAPI else o.URL
        (Except.ok
          { database := newDatabaseService url cur
            search := newSearchService (url ++ "/database/search")
            user := newUserService url
            collection := newCollectionService url }, hd)

/-- `discogs.go` lines 93–122: `request`.  `hdr` is the current value of
the package-global `header` (assigned to `r.Header`), `doReq` the
external `http.Client.Do`, `decode` the external `json.Unmarshal` into
the caller's destination of type `β` (a pointer destination is
`β = Option α`, with `none` for a `null` JSON body). -/
def request {β : Type} (hdr : Header) (doReq : HttpDo) (decode : Decoder β)
    (path : String) (params : List (String × String)) :
    Except DiscogsError β :=
  match doReq { path := path, query := params, headers := hdr } with
  | Except.error e => Except.error (DiscogsError.transportFailure e)
  | Except.ok response =>
    if response.statusCode ≠ 200 then
      if response.statusCode = 401 then
        Except.error DiscogsError.errUnauthorized
      else
        Except.error (DiscogsError.errUnknown ("unknown error: " ++ response.status))
    else
      match decode response.body with
      | Except.error m => Except.error (DiscogsError.decodeFailure m)
      | Except.ok v => Except.ok v

/-- `discogs.go` lines 124–146: `requestWithCreds`.  The OAuth1 call
`client.GetContext(ctx, creds, path, params)` is the oracle `oget`,
receiving the service's attached client and credentials. -/
def requestWithCreds {β : Type} (oget : OAuthGet OAuthClient Credentials)
    (client : Option OAuthClient) (creds : Option Credentials)
    (decode : Decoder β) (path : String) (params : List (String × String)) :
    Except DiscogsError β :=
  match oget client creds path params with
  | Except.error e => Except.error (DiscogsError.transportFailure e)
  | Except.ok response =>
    if response.statusCode ≠ 200 then
      if response.statusCode = 401 then
        Except.error DiscogsError.errUnauthorized
      else
        Except.error (DiscogsError.errUnknown ("unknown error: " ++ response.status))
    else
      match decode response.body with
      | Except.error m => Except.error (DiscogsError.decodeFailure m)
      | Except.ok v => Except.ok v

/-- Modelled from the spec: the `Pagination` helper (its Go source is not
among the provided files; per §2/§3 of the spec it carries an optional
page number and page size). -/
structure Pagination where
  Page : Option Nat
  PerPage : Option Nat
deriving DecidableEq, Repr

/-- Modelled from the spec: `Pagination`-to-query-parameter conversion used
as `pagination.params()` by the database service ("Converts to query
parameters; absent fields are omitted"); a `nil` receiver contributes no
parameters. -/
def Pagination.params : Option Pagination → List (String × String)
  | none => []
  | some p =>
    (match p.Page with
     | some n => [("page", toString n)]
     | none => []) ++
    (match p.PerPage with
     | some n => [("per_page", toString n)]
     | none => [])

/-- `database.go` line 13: `releasesURI`. -/
def releasesURI : String := "/releases/"

/-- `database.go` line 14: `artistsURI`. -/
def artistsURI : String := "/artists/"

/-- `database.go` line 15: `labelsURI`. -/
def labelsURI : String := "/labels/"

/-- `database.go` line 16: `mastersURI`. -/
def mastersURI : String := "/masters/"

/-- A Go method result `(*T, error)`: the returned pointer (possibly nil)
and the returned error (possibly nil). -/
abbrev GoResult (α : Type) := Option α × Option DiscogsError

/-- `database.go` lines 89–117: `databaseService.Release`.  `α` is the
`Release` record type; the destination is the pointer `*Release`, so the
decoder produces `Option α`. -/
def databaseService.Release (α : Type) (s : databaseService) (hdr : Header)
    (doReq : HttpDo) (decode : Decoder (Option α)) (releaseID : Int) :
    GoResult α :=
  let params := [("curr_abbr", s.currency)]
  let path := s.url ++ releasesURI ++ strconv.Itoa releaseID
  match request hdr doReq decode path params with
  | Except.error err =>
    (none, some (DiscogsError.wrapped "failed to fetch release" err))
  | Except.ok release => (release, none)

/-- `database.go` lines 125–147: `databaseService.ReleaseRating`. -/
def databaseService.ReleaseRating (α : Type) (s : databaseService) (hdr : Header)
    (doReq : HttpDo) (decode : Decoder (Option α)) (releaseID : Int) :
    GoResult α :=
  let path := s.url ++ releasesURI ++ strconv.Itoa releaseID ++ "/rating"
  match request hdr doReq decode path [] with
  | Except.error err =>
    (none, some (DiscogsError.wrapped "failed to fetch release rating" err))
  | Except.ok rating => (rating, none)

/-- `database.go` lines 168–190: `databaseService.Artist`. -/
def databaseService.Artist (α : Type) (s : databaseService) (hdr : Header)
    (doReq : HttpDo) (decode : Decoder (Option α)) (artistID : Int) :
    GoResult α :=
  let path := s.url ++ artistsURI ++ strconv.Itoa artistID
  match request hdr doReq decode path [] with
  | Except.error err =>
    (none, some (DiscogsError.wrapped "failed to fetch artist" err))
  | Except.ok artist => (artist, none)

/-- `database.go` lines 198–220: `databaseService.ArtistReleases`. -/
def databaseService.ArtistReleases (α : Type) (s : databaseService) (hdr : Header)
    (doReq : HttpDo) (decode : Decoder (Option α)) (artistID : Int)
    (pagination : Option Pagination) : GoResult α :=
  let path := s.url ++ artistsURI ++ strconv.Itoa artistID ++ "/releases"
  match request hdr doReq decode path (Pagination.params pagination) with
  | Except.error err =>
    (none, some (DiscogsError.wrapped "failed to fetch artist releases" err))
  | Except.ok releases => (releases, none)

/-- `database.go` lines 238–260: `databaseService.Label`.  Note that the
source wraps failures with the message "failed to fetch artist releases"
(copied from `ArtistReleases`), not a label-specific message. -/
def databaseService.Label (α : Type) (s : databaseService) (hdr : Header)
    (doReq : HttpDo) (decode : Decoder (Option α)) (labelID : Int) :
    GoResult α :=
  let path := s.url ++ labelsURI ++ strconv.Itoa labelID
  match request hdr doReq decode path [] with
  | Except.error err =>
    (none, some (DiscogsError.wrapped "failed to fetch artist releases" err))
  | Except.ok label => (label, none)

/-- `database.go` lines 268–290: `databaseService.LabelReleases` (it also
wraps with "failed to fetch artist releases"). -/
def databaseService.LabelReleases (α : Type) (s : databaseService) (hdr : Header)
    (doReq : HttpDo) (decode : Decoder (Option α)) (labelID : Int)
    (pagination : Option Pagination) : GoResult α :=
  let path := s.url ++ labelsURI ++ strconv.Itoa labelID ++ "/releases"
  match request hdr doReq decode path (Pagination.params pagination) with
  | Except.error err =>
    (none, some (DiscogsError.wrapped "failed to fetch artist releases" err))
  | Except.ok releases => (releases, none)

/-- `database.go` lines 318–340: `databaseService.Master` (it also wraps
with "failed to fetch artist releases"). -/
def databaseService.Master (α : Type) (s : databaseService) (hdr : Header)
    (doReq : HttpDo) (decode : Decoder (Option α)) (masterID : Int) :
    GoResult α :=
  let path := s.url ++ mastersURI ++ strconv.Itoa masterID
  match request hdr doReq decode path [] with
  | Except.error err =>
    (none, some (DiscogsError.wrapped "failed to fetch artist releases" err))
  | Except.ok master => (master, none)

/-- `database.go` lines 348–370: `databaseService.MasterVersions` (it also
wraps with "failed to fetch artist releases"). -/
def databaseService.MasterVersions (α : Type) (s : databaseService) (hdr : Header)
    (doReq : HttpDo) (decode : Decoder (Option α)) (masterID : Int)
    (pagination : Option Pagination) : GoResult α :=
  let path := s.url ++ mastersURI ++ strconv.Itoa masterID ++ "/versions"
  match request hdr doReq decode path (Pagination.params pagination) with
  | Except.error err =>
    (none, some (DiscogsError.wrapped "failed to fetch artist releases" err))
  | Except.ok versions => (versions, none)

/-- The dynamic value a functional option receives: Go's `interface{}`
argument, restricted to the service types of this package.  `database`
and `search` stand for the "any other type" arms (no `case` matches
them in the option's type switch). -/
inductive ServiceValue where
  | collection (t : collectionService) : ServiceValue
  | user (t : userService) : ServiceValue
  | database (t : databaseService) : ServiceValue
  | search (t : searchService) : ServiceValue
deriving DecidableEq, Repr

/-- `options.go`: the `Option func(interface{})` type, as an in-place
mutation of the received value. -/
abbrev ServiceOption := ServiceValue → ServiceValue

/-- `options.go` lines 42–51: `WithCredentials`.  The type switch sets
the `creds` field on `*collectionService` and `*userService` and
silently does nothing on any other dynamic type. -/
def WithCredentials (creds : Option Credentials) : ServiceOption :=
  fun c =>
    match c with
    | ServiceValue.collection t => ServiceValue.collection { t with creds := creds }
    | ServiceValue.user t => ServiceValue.user { t with creds := creds }
    | v => v

/-- `options.go` lines 53–62: `WithClient`. -/
def WithClient (client : Option OAuthClient) : ServiceOption :=
  fun c =>
    match c with
    | ServiceValue.collection t => ServiceValue.collection { t with oauthClient := client }
    | ServiceValue.user t => ServiceValue.user { t with oauthClient := client }
    | v => v

/-- The `for _, opts := range options { opts(c) }` loop of the service
methods, acting on the receiver. -/
def applyOptions (opts : List ServiceOption) (v : ServiceValue) : ServiceValue :=
  opts.foldl (fun acc o => o acc) v

/-- The collection-service receiver after the option loop (the Go loop
mutates the `*collectionService` in place, so its dynamic type cannot
change; the fallback arm is unreachable for Go-representable options). -/
def collectionService.afterOptions (c : collectionService)
    (opts : List ServiceOption) : collectionService :=
  match applyOptions opts (ServiceValue.collection c) with
  | ServiceValue.collection t => t
  | _ => c

/-- The user-service receiver after the option loop. -/
def userService.afterOptions (u : userService)
    (opts : List ServiceOption) : userService :=
  match applyOptions opts (ServiceValue.user u) with
  | ServiceValue.user t => t
  | _ => u

/-- `collections.go` line 24: `foldersURI`. -/
def foldersURI : String := "/users/{username}/collection/folders"

/-- `collections.go` line 25: `folderURI`. -/
def folderURI : String := "/users/{username}/collection/folders/{id}"

/-- `collections.go` line 26: `folderReleasesURI`. -/
def folderReleasesURI : String := "/users/{username}/collection/folders/{id}/releases"

/-- `collections.go` lines 39–44: the `Folder` record. -/
structure Folder where
  id : Int
  count : Int
  name : String
  resourceURL : String
deriving DecidableEq, Repr

/-- `collections.go` lines 35–37: the `CollectionResponse` record. -/
structure CollectionResponse where
  folders : List Folder
deriving DecidableEq, Repr

/-- `collections.go` lines 46–80: `collectionService.GetFolders`.  The
destination is the value `var collection CollectionResponse` (not a
pointer), whose address is returned on success; a failure of
`requestWithCreds` is returned to the caller unwrapped.  The method
result also carries the (possibly option-mutated) receiver state. -/
def collectionService.GetFolders (c : collectionService)
    (oget : OAuthGet OAuthClient Credentials) (decode : Decoder CollectionResponse)
    (username : String) (options : List ServiceOption) :
    GoResult CollectionResponse :=
  let c := c.afterOptions options
  let path := replaceOnce foldersURI "{username}" username
  match requestWithCreds oget c.oauthClient c.creds decode (c.url ++ path) [] with
  | Except.error err => (none, some err)
  | Except.ok collection => (some collection, none)

/-- `collections.go` lines 82–85: `GetFolderArgs`. -/
structure GetFolderArgs where
  ID : Int
  Username : String
deriving DecidableEq, Repr

/-- `collections.go` lines 96–129: `collectionService.GetFolder`. -/
def collectionService.GetFolder (c : collectionService)
    (oget : OAuthGet OAuthClient Credentials) (decode : Decoder Folder)
    (args : GetFolderArgs) (options : List ServiceOption) :
    GoResult Folder :=
  let c := c.afterOptions options
  let path := replaceOnce folderURI "{username}" args.Username
  let path := replaceOnce path "{id}" (strconv.Itoa args.ID)
  match requestWithCreds oget c.oauthClient c.creds decode (c.url ++ path) [] with
  | Except.error err => (none, some err)
  | Except.ok folder => (some folder, none)

/-- `collections.go` lines 137–170: `collectionService.GetFolderReleases`
(`α` is the `FolderReleasesResponse` record). -/
def collectionService.GetFolderReleases (α : Type) (c : collectionService)
    (oget : OAuthGet OAuthClient Credentials) (decode : Decoder α)
    (args : GetFolderArgs) (options : List ServiceOption) :
    GoResult α :=
  let c := c.afterOptions options
  let path := replaceOnce folderReleasesURI "{username}" args.Username
  let path := replaceOnce path "{id}" (strconv.Itoa args.ID)
  match requestWithCreds oget c.oauthClient c.creds decode (c.url ++ path) [] with
  | Except.error err => (none, some err)
  | Except.ok releases => (some releases, none)

/-- `users.go` line 21: `oauthIdentityURI`. -/
def oauthIdentityURI : String := "/oauth/identity"

/-- `users.go` lines 30–35: the `Identity` record. -/
structure Identity where
  consumerName : String
  id : Int
  resourceURL : String
  username : String
deriving DecidableEq, Repr

/-- `users.go` lines 37–70: `userService.OAuthIdentity`. -/
def userService.OAuthIdentity (u : userService)
    (oget : OAuthGet OAuthClient Credentials) (decode : Decoder Identity)
    (options : List ServiceOption) : GoResult Identity :=
  let u := u.afterOptions options
  let route := u.url ++ oauthIdentityURI
  match requestWithCreds oget u.oauthClient u.creds decode route [] with
  | Except.error err => (none, some err)
  | Except.ok id => (some id, none)

/-! ## Theorems -/

/-- C1: for every call to the transport function `request`, a 401 response
yields `ErrUnauthorized`; any other non-200 status yields the generic
`unknown error: <status text>` error carrying the original status text;
and a 200 response whose body fails to decode yields a decode error that
is distinct from both status-mapping errors. -/
theorem request_status_mapping {β : Type} (hdr : Header) (doReq : HttpDo)
    (decode : Decoder β) (path : String) (params : List (String × String))
    (resp : HTTPResponse)
    (hresp : doReq { path := path, query := params, headers := hdr } = Except.ok resp) :
    (resp.statusCode = 401 →
      request hdr doReq decode path params =
        Except.error DiscogsError.errUnauthorized) ∧
    (resp.statusCode ≠ 200 → resp.statusCode ≠ 401 →
      request hdr doReq decode path params =
        Except.error (DiscogsError.errUnknown ("unknown error: " ++ resp.status))) ∧
    (resp.statusCode = 200 → ∀ m, decode resp.body = Except.error m →
      request hdr doReq decode path params =
        Except.error (DiscogsError.decodeFailure m) ∧
      DiscogsError.decodeFailure m ≠ DiscogsError.errUnauthorized ∧
      ∀ s, DiscogsError.decodeFailure m ≠ DiscogsError.errUnknown s) := by
  refine ⟨?_, ?_, ?_⟩
  · intro h401
    simp [request, hresp, h401]
  · intro hn200 hn401
    simp [request, hresp, hn200, hn401]
  · intro h200 m hm
    refine ⟨?_, by simp, by intro s; simp⟩
    simp [request, hresp, h200, hm]

/-- Witness for C1: the three branches of `request_status_mapping` at
concrete responses. -/
theorem request_status_mapping_witness :
    request (β := Unit) [] (fun _ => Except.ok ⟨401, "401 Unauthorized", ""⟩)
        (fun _ => Except.ok ()) "/releases/1" [] =
      Except.error DiscogsError.errUnauthorized ∧
    request (β := Unit) [] (fun _ => Except.ok ⟨404, "404 Not Found", ""⟩)
        (fun _ => Except.ok ()) "/releases/1" [] =
      Except.error (DiscogsError.errUnknown ("unknown error: " ++ "404 Not Found")) ∧
    request (β := Unit) [] (fun _ => Except.ok ⟨200, "200 OK", "xx"⟩)
        (fun _ => Except.error "invalid character x") "/releases/1" [] =
      Except.error (DiscogsError.decodeFailure "invalid character x") :=
  ⟨(request_status_mapping [] (fun _ => Except.ok ⟨401, "401 Unauthorized", ""⟩)
      (fun _ => Except.ok ()) "/releases/1" [] ⟨401, "401 Unauthorized", ""⟩ rfl).1 rfl,
   (request_status_mapping [] (fun _ => Except.ok ⟨404, "404 Not Found", ""⟩)
      (fun _ => Except.ok ()) "/releases/1" [] ⟨404, "404 Not Found", ""⟩ rfl).2.1
      (by decide) (by decide),
   ((request_status_mapping [] (fun _ => Except.ok ⟨200, "200 OK", "xx"⟩)
      (fun _ => Except.error "invalid character x") "/releases/1" []
      ⟨200, "200 OK", "xx"⟩ rfl).2.2 rfl "invalid character x" rfl).1⟩

/-- The currency recorded in the database service of a successful `New`
result (`none` when construction failed). -/
def resultCurrency : Except DiscogsError discogs × Header → Option String
  | (Except.ok c, _) => some c.database.currency
  | (Except.error _, _) => none

/-- C2: with a non-empty user agent, `New` succeeds for each of the twelve
supported currency codes (keeping that currency), fails with
`ErrCurrencyNotSupported` for any other non-empty currency string, and
defaults the currency to `USD` exactly when the `Currency` field is
empty. -/
theorem New_currency_spec (o : Options) (h0 : Header) (hua : o.UserAgent ≠ "") :
    (o.Currency ∈ supportedCurrencies →
      resultCurrency (New (some o) h0) = some o.Currency) ∧
    (o.Currency ∉ supportedCurrencies → o.Currency ≠ "" →
      (New (some o) h0).1 = Except.error DiscogsError.errCurrencyNotSupported) ∧
    (o.Currency = "" → resultCurrency (New (some o) h0) = some "USD") := by
  refine ⟨?_, ?_, ?_⟩
  · intro hmem
    simp [New, hua, currency, hmem, resultCurrency, newDatabaseService]
  · intro hnmem hne
    simp [New, hua, currency, hnmem, hne]
  · intro hemp
    simp [New, hua, hemp, currency, supportedCurrencies, resultCurrency,
      newDatabaseService]

/-- Witness for C2: `EUR` is accepted and kept, `XXX` is rejected with
`ErrCurrencyNotSupported`, and the empty currency defaults to `USD`. -/
theorem New_currency_spec_witness :
    resultCurrency (New (some ⟨"", "EUR", "agent", ""⟩) []) = some "EUR" ∧
    (New (some ⟨"", "XXX", "agent", ""⟩) []).1 =
      Except.error DiscogsError.errCurrencyNotSupported ∧
    resultCurrency (New (some ⟨"", "", "agent", ""⟩) []) = some "USD" :=
  ⟨(New_currency_spec ⟨"", "EUR", "agent", ""⟩ [] (by decide)).1 (by decide),
   (New_currency_spec ⟨"", "XXX", "agent", ""⟩ [] (by decide)).2.1
     (by decide) (by decide),
   (New_currency_spec ⟨"", "", "agent", ""⟩ [] (by decide)).2.2 rfl⟩

/-- C3: `New` with a nil options pointer, or with any options value whose
`UserAgent` is empty (whatever `URL`, `Currency` and `Token` hold),
returns no client and the `ErrUserAgentInvalid` error, before currency
validation is ever consulted; the global header is left freshly reset. -/
theorem New_user_agent_required (oo : Options) (h0 : Header)
    (hua : oo.UserAgent = "") :
    New none h0 = (Except.error DiscogsError.errUserAgentInvalid, []) ∧
    New (some oo) h0 = (Except.error DiscogsError.errUserAgentInvalid, []) :=
  ⟨rfl, by simp [New, hua]⟩

/-- Witness for C3: options with an unsupported currency and a token but no
user agent still fail with `ErrUserAgentInvalid` (so the user-agent check
takes precedence over currency validation), as does a nil options
pointer. -/
theorem New_user_agent_required_witness :
    New none [("stale", "header")] =
      (Except.error DiscogsError.errUserAgentInvalid, []) ∧
    New (some ⟨"http://x", "NOPE", "", "tok"⟩) [("stale", "header")] =
      (Except.error DiscogsError.errUserAgentInvalid, []) :=
  New_user_agent_required ⟨"http://x", "NOPE", "", "tok"⟩ [("stale", "header")] rfl

/-- C4: each database-service method hands the transport exactly the
documented path template (observed through a transport oracle that
reports back the path it was given): `Release` uses
`url + "/releases/" + id`, `ReleaseRating` appends `"/rating"`,
`Artist` uses `url + "/artists/" + id`, `ArtistReleases` appends
`"/releases"`, `Label` uses `url + "/labels/" + id`, `LabelReleases`
appends `"/releases"`, `Master` uses `url + "/masters/" + id`,
`MasterVersions` appends `"/versions"`; in particular id `249504` gives
the path suffix `/releases/249504`. -/
theorem database_path_templates (α : Type) (s : databaseService) (hdr : Header)
    (decode : Decoder (Option α)) (id : Int) (pg : Option Pagination) :
    (databaseService.Release α s hdr (fun r => Except.error r.path) decode id).2 =
      some (DiscogsError.wrapped "failed to fetch release"
        (DiscogsError.transportFailure (s.url ++ "/releases/" ++ strconv.Itoa id))) ∧
    (databaseService.ReleaseRating α s hdr (fun r => Except.error r.path) decode id).2 =
      some (DiscogsError.wrapped "failed to fetch release rating"
        (DiscogsError.transportFailure (s.url ++ "/releases/" ++ strconv.Itoa id ++ "/rating"))) ∧
    (databaseService.Artist α s hdr (fun r => Except.error r.path) decode id).2 =
      some (DiscogsError.wrapped "failed to fetch artist"
        (DiscogsError.transportFailure (s.url ++ "/artists/" ++ strconv.Itoa id))) ∧
    (databaseService.ArtistReleases α s hdr (fun r => Except.error r.path) decode id pg).2 =
      some (DiscogsError.wrapped "failed to fetch artist releases"
        (DiscogsError.transportFailure (s.url ++ "/artists/" ++ strconv.Itoa id ++ "/releases"))) ∧
    (databaseService.Label α s hdr (fun r => Except.error r.path) decode id).2 =
      some (DiscogsError.wrapped "failed to fetch artist releases"
        (DiscogsError.transportFailure (s.url ++ "/labels/" ++ strconv.Itoa id))) ∧
    (databaseService.LabelReleases α s hdr (fun r => Except.error r.path) decode id pg).2 =
      some (DiscogsError.wrapped "failed to fetch artist releases"
        (DiscogsError.transportFailure (s.url ++ "/labels/" ++ strconv.Itoa id ++ "/releases"))) ∧
    (databaseService.Master α s hdr (fun r => Except.error r.path) decode id).2 =
      some (DiscogsError.wrapped "failed to fetch artist releases"
        (DiscogsError.transportFailure (s.url ++ "/masters/" ++ strconv.Itoa id))) ∧
    (databaseService.MasterVersions α s hdr (fun r => Except.error r.path) decode id pg).2 =
      some (DiscogsError.wrapped "failed to fetch artist releases"
        (DiscogsError.transportFailure (s.url ++ "/masters/" ++ strconv.Itoa id ++ "/versions"))) ∧
    (databaseService.Release α ⟨"", "USD"⟩ hdr (fun r => Except.error r.path) decode 249504).2 =
      some (DiscogsError.wrapped "failed to fetch release"
        (DiscogsError.transportFailure ("/releases/" ++ "249504"))) :=
  ⟨rfl, rfl, rfl, rfl, rfl, rfl, rfl, rfl, rfl⟩

/-- C5, counterexample: `Label` on a failing call does not wrap the error
with a prefix naming the label operation — it wraps with
"failed to fetch artist releases" (copied from `ArtistReleases`), not
"failed to fetch label"; and `GetFolders` returns the underlying error
completely unwrapped (here the bare `ErrUnauthorized`). -/
theorem label_wrap_prefix_counterexample :
    (databaseService.Label Unit ⟨"", "USD"⟩ []
        (fun _ => Except.ok ⟨401, "401 Unauthorized", ""⟩)
        (fun _ => Except.ok none) 5).2 =
      some (DiscogsError.wrapped "failed to fetch artist releases"
        DiscogsError.errUnauthorized) ∧
    "failed to fetch artist releases" ≠ "failed to fetch label" ∧
    (collectionService.GetFolders (newCollectionService "")
        (fun _ _ _ _ => Except.ok ⟨401, "401 Unauthorized", ""⟩)
        (fun _ => Except.error "eof") "alice" []).2 =
      some DiscogsError.errUnauthorized ∧
    DiscogsError.errUnauthorized.isWrapped = false :=
  ⟨rfl, by decide, rfl, rfl⟩

/-- C5, amended: when the underlying request fails, every database-service
method returns a wrapped error that preserves the original cause, but the
wrapping prefix identifies the operation only for `Release`,
`ReleaseRating`, `Artist` and `ArtistReleases`; `Label`, `LabelReleases`,
`Master` and `MasterVersions` all reuse the prefix
"failed to fetch artist releases", and the collection- and user-service
methods return the underlying error to the caller unwrapped. -/
theorem error_wrapping_amended (α : Type) (s : databaseService) (hdr : Header)
    (decode : Decoder (Option α)) (m : String) (id : Int) (pg : Option Pagination)
    (c : collectionService) (u : userService) (dc : Decoder CollectionResponse)
    (df : Decoder Folder) (di : Decoder Identity) (username : String)
    (args : GetFolderArgs) :
    (databaseService.Release α s hdr (fun _ => Except.error m) decode id).2 =
      some (DiscogsError.wrapped "failed to fetch release"
        (DiscogsError.transportFailure m)) ∧
    (databaseService.ReleaseRating α s hdr (fun _ => Except.error m) decode id).2 =
      some (DiscogsError.wrapped "failed to fetch release rating"
        (DiscogsError.transportFailure m)) ∧
    (databaseService.Artist α s hdr (fun _ => Except.error m) decode id).2 =
      some (DiscogsError.wrapped "failed to fetch artist"
        (DiscogsError.transportFailure m)) ∧
    (databaseService.ArtistReleases α s hdr (fun _ => Except.error m) decode id pg).2 =
      some (DiscogsError.wrapped "failed to fetch artist releases"
        (DiscogsError.transportFailure m)) ∧
    (databaseService.Label α s hdr (fun _ => Except.error m) decode id).2 =
      some (DiscogsError.wrapped "failed to fetch artist releases"
        (DiscogsError.transportFailure m)) ∧
    (databaseService.LabelReleases α s hdr (fun _ => Except.error m) decode id pg).2 =
      some (DiscogsError.wrapped "failed to fetch artist releases"
        (DiscogsError.transportFailure m)) ∧
    (databaseService.Master α s hdr (fun _ => Except.error m) decode id).2 =
      some (DiscogsError.wrapped "failed to fetch artist releases"
        (DiscogsError.transportFailure m)) ∧
    (databaseService.MasterVersions α s hdr (fun _ => Except.error m) decode id pg).2 =
      some (DiscogsError.wrapped "failed to fetch artist releases"
        (DiscogsError.transportFailure m)) ∧
    (collectionService.GetFolders c (fun _ _ _ _ => Except.error m) dc username []).2 =
      some (DiscogsError.transportFailure m) ∧
    (collectionService.GetFolder c (fun _ _ _ _ => Except.error m) df args []).2 =
      some (DiscogsError.transportFailure m) ∧
    (userService.OAuthIdentity u (fun _ _ _ _ => Except.error m) di []).2 =
      some (DiscogsError.transportFailure m) ∧
    (DiscogsError.transportFailure m).isWrapped = false :=
  ⟨rfl, rfl, rfl, rfl, rfl, rfl, rfl, rfl, rfl, rfl, rfl, rfl⟩

/-- C6: `GetFolders` on a freshly constructed collection service (no OAuth
client and no credentials attached, no options applied) issues the
request with `none` for both; if the upstream rejects it with a 401 the
caller receives no result and exactly `ErrUnauthorized`, and if the
transport itself fails the caller receives the transport error — never a
successful result. -/
theorem getFolders_without_credentials (url username : String)
    (oget : OAuthGet OAuthClient Credentials) (decode : Decoder CollectionResponse) :
    (∀ resp : HTTPResponse,
      oget none none (url ++ replaceOnce foldersURI "{username}" username) [] =
        Except.ok resp →
      resp.statusCode = 401 →
      collectionService.GetFolders (newCollectionService url) oget decode username [] =
        (none, some DiscogsError.errUnauthorized)) ∧
    (∀ m : String,
      oget none none (url ++ replaceOnce foldersURI "{username}" username) [] =
        Except.error m →
      collectionService.GetFolders (newCollectionService url) oget decode username [] =
        (none, some (DiscogsError.transportFailure m))) := by
  constructor
  · intro resp hresp h401
    simp [collectionService.GetFolders, collectionService.afterOptions,
      applyOptions, newCollectionService, requestWithCreds, hresp, h401]
  · intro m hm
    simp [collectionService.GetFolders, collectionService.afterOptions,
      applyOptions, newCollectionService, requestWithCreds, hm]

/-- Witness for C6: against an upstream that answers 401 to the
unauthenticated folders request, `GetFolders` for user "alice" returns
no result and `ErrUnauthorized`. -/
theorem getFolders_without_credentials_witness :
    collectionService.GetFolders (newCollectionService "https://api.discogs.com")
        (fun _ _ _ _ => Except.ok ⟨401, "401 Unauthorized", ""⟩)
        (fun _ => Except.error "eof") "alice" [] =
      (none, some DiscogsError.errUnauthorized) :=
  (getFolders_without_credentials "https://api.discogs.com" "alice"
      (fun _ _ _ _ => Except.ok ⟨401, "401 Unauthorized", ""⟩)
      (fun _ => Except.error "eof")).1
    ⟨401, "401 Unauthorized", ""⟩ rfl rfl

/-- C7: `ArtistReleases` with pagination `{Page: 2, PerPage: 50}` hands the
transport the query parameters `page=2&per_page=50` (observed through a
transport oracle reporting back the encoded query it was given), and the
pagination-to-query conversion emits exactly the present fields, omitting
absent ones (and a nil pagination contributes no parameters). -/
theorem artistReleases_pagination (α : Type) (s : databaseService) (hdr : Header)
    (decode : Decoder (Option α)) (id : Int) (p q : Nat) :
    (databaseService.ArtistReleases α s hdr
        (fun r => Except.error (encodeParams r.query)) decode id
        (some { Page := some 2, PerPage := some 50 })).2 =
      some (DiscogsError.wrapped "failed to fetch artist releases"
        (DiscogsError.transportFailure "page=2&per_page=50")) ∧
    Pagination.params (some { Page := some p, PerPage := some q }) =
      [("page", toString p), ("per_page", toString q)] ∧
    Pagination.params (some { Page := some p, PerPage := none }) =
      [("page", toString p)] ∧
    Pagination.params (some { Page := none, PerPage := some q }) =
      [("per_page", toString q)] ∧
    Pagination.params (some { Page := none, PerPage := none }) = [] ∧
    Pagination.params none = [] :=
  ⟨rfl, rfl, rfl, rfl, rfl, rfl⟩

/-- C8: no operation ever returns both a non-nil result pointer and a
non-nil error — for every method of the database, collection and user
services and every behavior of the transport and decoder oracles, the
returned pair has a nil result or a nil error. -/
theorem no_partial_results (α : Type) (s : databaseService) (hdr : Header)
    (doReq : HttpDo) (dec : Decoder (Option α)) (id : Int) (pg : Option Pagination)
    (c : collectionService) (u : userService)
    (oget : OAuthGet OAuthClient Credentials) (dc : Decoder CollectionResponse)
    (df : Decoder Folder) (dr : Decoder α) (di : Decoder Identity)
    (username : String) (args : GetFolderArgs) (opts : List ServiceOption) :
    ((databaseService.Release α s hdr doReq dec id).1 = none ∨
      (databaseService.Release α s hdr doReq dec id).2 = none) ∧
    ((databaseService.ReleaseRating α s hdr doReq dec id).1 = none ∨
      (databaseService.ReleaseRating α s hdr doReq dec id).2 = none) ∧
    ((databaseService.Artist α s hdr doReq dec id).1 = none ∨
      (databaseService.Artist α s hdr doReq dec id).2 = none) ∧
    ((databaseService.ArtistReleases α s hdr doReq dec id pg).1 = none ∨
      (databaseService.ArtistReleases α s hdr doReq dec id pg).2 = none) ∧
    ((databaseService.Label α s hdr doReq dec id).1 = none ∨
      (databaseService.Label α s hdr doReq dec id).2 = none) ∧
    ((databaseService.LabelReleases α s hdr doReq dec id pg).1 = none ∨
      (databaseService.LabelReleases α s hdr doReq dec id pg).2 = none) ∧
    ((databaseService.Master α s hdr doReq dec id).1 = none ∨
      (databaseService.Master α s hdr doReq dec id).2 = none) ∧
    ((databaseService.MasterVersions α s hdr doReq dec id pg).1 = none ∨
      (databaseService.MasterVersions α s hdr doReq dec id pg).2 = none) ∧
    ((collectionService.GetFolders c oget dc username opts).1 = none ∨
      (collectionService.GetFolders c oget dc username opts).2 = none) ∧
    ((collectionService.GetFolder c oget df args opts).1 = none ∨
      (collectionService.GetFolder c oget df args opts).2 = none) ∧
    ((collectionService.GetFolderReleases α c oget dr args opts).1 = none ∨
      (collectionService.GetFolderReleases α c oget dr args opts).2 = none) ∧
    ((userService.OAuthIdentity u oget di opts).1 = none ∨
      (userService.OAuthIdentity u oget di opts).2 = none) := by
  refine ⟨?_, ?_, ?_, ?_, ?_, ?_, ?_, ?_, ?_, ?_, ?_, ?_⟩ <;>
    (simp only [databaseService.Release, databaseService.ReleaseRating,
        databaseService.Artist, databaseService.ArtistReleases,
        databaseService.Label, databaseService.LabelReleases,
        databaseService.Master, databaseService.MasterVersions,
        collectionService.GetFolders, collectionService.GetFolder,
        collectionService.GetFolderReleases, userService.OAuthIdentity]
     split <;> first | exact Or.inl rfl | exact Or.inr rfl)

/-- Helper: a `New` call whose options carry a non-empty user agent leaves
the global header starting with that user agent. -/
theorem New_header_head (o : Options) (h : Header) (hne : o.UserAgent ≠ "") :
    ∃ rest, (New (some o) h).2 = ("User-Agent", o.UserAgent) :: rest := by
  cases hcur : currency o.Currency with
  | error e => exact ⟨[], by simp [New, hne, hcur]⟩
  | ok cur =>
    by_cases ht : o.Token = ""
    · exact ⟨[], by simp [New, hne, hcur, ht]⟩
    · exact ⟨[("Authorization", "Discogs token=" ++ o.Token)],
        by simp [New, hne, hcur, ht]⟩

/-- C9: the global header depends only on the most recent `New` call —
`New` resets and repopulates it independently of its previous value, so
after a second `New` with a different user agent the header differs from
the one left by the first call, and a static-auth `request` (which reads
the global header; observed through a transport oracle that reports back
the headers it was handed) carries the headers of the most recent
construction. -/
theorem global_header_latest_wins {β : Type} (o1 o2 : Options) (h0 : Header)
    (decode : Decoder β) (path : String) (params : List (String × String))
    (h1ua : o1.UserAgent ≠ "") (h2ua : o2.UserAgent ≠ "")
    (hdiff : o1.UserAgent ≠ o2.UserAgent) :
    (∀ h h' : Header, (New (some o2) h).2 = (New (some o2) h').2) ∧
    (New (some o2) (New (some o1) h0).2).2 = (New (some o2) h0).2 ∧
    (New (some o2) (New (some o1) h0).2).2 ≠ (New (some o1) h0).2 ∧
    request ((New (some o2) (New (some o1) h0).2).2)
        (fun r => Except.error (encodeParams r.headers)) decode path params =
      Except.error (DiscogsError.transportFailure
        (encodeParams ((New (some o2) h0).2))) := by
  refine ⟨fun h h' => rfl, rfl, ?_, rfl⟩
  obtain ⟨r1, hr1⟩ := New_header_head o1 h0 h1ua
  obtain ⟨r2, hr2⟩ := New_header_head o2 (New (some o1) h0).2 h2ua
  rw [hr2, hr1]
  intro hEq
  injection hEq with hhead _
  injection hhead with _ hua
  exact hdiff hua.symm

/-- Witness for C9: constructing with user agent "agent-one" and then with
"agent-two" leaves a global header different from the first one, and a
static-auth request issued afterwards carries the second construction's
headers. -/
theorem global_header_latest_wins_witness :
    (New (some ⟨"", "", "agent-two", "tok"⟩)
        (New (some ⟨"", "", "agent-one", ""⟩) []).2).2 ≠
      (New (some ⟨"", "", "agent-one", ""⟩) []).2 ∧
    request ((New (some ⟨"", "", "agent-two", "tok"⟩)
          (New (some ⟨"", "", "agent-one", ""⟩) []).2).2)
        (fun r => Except.error (encodeParams r.headers))
        (fun _ => Except.ok (0 : Int)) "/artists/1" [] =
      Except.error (DiscogsError.transportFailure
        (encodeParams ((New (some ⟨"", "", "agent-two", "tok"⟩) []).2))) :=
  ⟨(global_header_latest_wins ⟨"", "", "agent-one", ""⟩ ⟨"", "", "agent-two", "tok"⟩
      [] (fun _ => Except.ok (0 : Int)) "/artists/1" []
      (by decide) (by decide) (by decide)).2.2.1,
   (global_header_latest_wins ⟨"", "", "agent-one", ""⟩ ⟨"", "", "agent-two", "tok"⟩
      [] (fun _ => Except.ok (0 : Int)) "/artists/1" []
      (by decide) (by decide) (by decide)).2.2.2⟩

/-- C10: `WithCredentials` sets only the `creds` field of a collection or
user service, leaving `url` and `oauthClient` untouched; `WithClient`
symmetrically sets only `oauthClient`; and on a value of any other
dynamic type (database or search service) either option is a silent
no-op. -/
theorem with_options_frame (creds : Option Credentials)
    (client : Option OAuthClient) (tc : collectionService) (tu : userService)
    (td : databaseService) (ts : searchService) :
    WithCredentials creds (ServiceValue.collection tc) =
      ServiceValue.collection
        { url := tc.url, oauthClient := tc.oauthClient, creds := creds } ∧
    WithCredentials creds (ServiceValue.user tu) =
      ServiceValue.user
        { url := tu.url, oauthClient := tu.oauthClient, creds := creds } ∧
    WithCredentials creds (ServiceValue.database td) = ServiceValue.database td ∧
    WithCredentials creds (ServiceValue.search ts) = ServiceValue.search ts ∧
    WithClient client (ServiceValue.collection tc) =
      ServiceValue.collection
        { url := tc.url, oauthClient := client, creds := tc.creds } ∧
    WithClient client (ServiceValue.user tu) =
      ServiceValue.user
        { url := tu.url, oauthClient := client, creds := tu.creds } ∧
    WithClient client (ServiceValue.database td) = ServiceValue.database td ∧
    WithClient client (ServiceValue.search ts) = ServiceValue.search ts :=
  ⟨rfl, rfl, rfl, rfl, rfl, rfl, rfl, rfl⟩

end GoDiscogs
